import Mathlib

/-!
Verification development for the Fuchsia video-capture driver
(`media/capture/video/fuchsia/video_capture_device_fuchsia.cc`).

The driver's pure computations (`RoundUp`, the even-rounding of the visible
size, the plane-offset arithmetic of `CopyAndConvertFrame`) are embedded as
Lean functions on `Nat`; the driver's per-frame handler `ProcessNewFrame`
and the lifecycle methods (`AllocateAndStart`, `StopAndDeAllocate`,
`OnBufferReaderCreated`, `DisconnectStream`) are embedded as explicit
state-passing functions over a `DeviceState` record, with the outside world
(buffer mapping, client reservation) supplied as parameters and client
callbacks recorded as an event list.
-/

namespace VideoCaptureFuchsia

/-- gfx::Size: width and height (non-negative in all uses here). -/
structure Size where
  width : Nat
  height : Nat
deriving DecidableEq, Repr

/-- fuchsia::sysmem::PixelFormatType, restricted to the constructors the
driver distinguishes: the three supported YUV layouts, plus one constructor
standing for every other (unsupported) enum value. -/
inductive PixelFormatType where
  | I420
  | YV12
  | NV12
  | unsupported
deriving DecidableEq, Repr

/-- media::VideoPixelFormat, restricted to the two values the driver uses. -/
inductive VideoPixelFormat where
  | PIXEL_FORMAT_I420
  | PIXEL_FORMAT_UNKNOWN
deriving DecidableEq, Repr

/-- VideoCaptureDeviceFuchsia::GetConvertedPixelFormat: all supported YUV
formats are converted to I420; anything else is unknown. -/
def getConvertedPixelFormat : PixelFormatType → VideoPixelFormat
  | .I420 => .PIXEL_FORMAT_I420
  | .YV12 => .PIXEL_FORMAT_I420
  | .NV12 => .PIXEL_FORMAT_I420
  | .unsupported => .PIXEL_FORMAT_UNKNOWN

/-- VideoCaptureDeviceFuchsia::IsSupportedPixelFormat. -/
def isSupportedPixelFormat (fmt : PixelFormatType) : Bool :=
  getConvertedPixelFormat fmt != .PIXEL_FORMAT_UNKNOWN

/-- RoundUp(value, alignment) = ((value + alignment - 1) / alignment) * alignment. -/
def roundUp (value alignment : Nat) : Nat :=
  ((value + alignment - 1) / alignment) * alignment

/-- Offset (from the start of the destination buffer) of `dst_end` in
CopyAndConvertFrame: `dst_y_plane_size + dst_y_plane_size / 4 +
dst_y_plane_size / 4` where `dst_y_plane_size = width * height`. -/
def dstEndOffset (outputSize : Size) : Nat :=
  outputSize.width * outputSize.height +
    outputSize.width * outputSize.height / 4 +
    outputSize.width * outputSize.height / 4

/-- Offset (from the start of the source span) of `src_end` in
CopyAndConvertFrame. For I420 the end of the V plane follows the U plane;
for YV12 the U and V plane pointers are swapped, so `src_end` is the end of
the V plane lying directly after the Y plane; for NV12 it is the end of the
interleaved UV plane. All divisions are the source's truncating integer
divisions, with C++ left-to-right evaluation:
`src_stride_u * src_coded_height / 2` is `(strideY / 2 * codedHeight) / 2`. -/
def srcEndOffset (fmt : PixelFormatType) (strideY codedHeight : Nat) : Nat :=
  match fmt with
  | .I420 =>
      strideY * codedHeight + strideY / 2 * codedHeight / 2 +
        strideY / 2 * codedHeight / 2
  | .YV12 => strideY * codedHeight + strideY / 2 * codedHeight / 2
  | .NV12 => strideY * codedHeight + strideY * codedHeight / 2
  | .unsupported => 0

/-- Result of CopyAndConvertFrame. The two abort constructors correspond to
the two CHECK_LE statements (fatal process aborts); both CHECKs run before
any byte is written: the destination check before the format switch, the
source check before the libyuv call of each branch. `converted` is the only
result in which the libyuv conversion call (the only writer) runs. -/
inductive ConvertResult where
  | dstBoundAbort
  | srcBoundAbort
  | notReached
  | converted
deriving DecidableEq, Repr

/-- CopyAndConvertFrame, reduced to its control flow and bound checks: the
buffers enter only through their sizes, and the outcome records which CHECK
(if any) fired. `CHECK_LE(e, limit)` continues iff `e ≤ limit`. -/
def copyAndConvertFrame (srcSpanSize : Nat) (fmt : PixelFormatType)
    (strideY codedHeight dstMappedSize : Nat) (outputSize : Size) :
    ConvertResult :=
  if dstEndOffset outputSize ≤ dstMappedSize then
    match fmt with
    | .I420 =>
        if srcEndOffset .I420 strideY codedHeight ≤ srcSpanSize then
          .converted
        else .srcBoundAbort
    | .YV12 =>
        if srcEndOffset .YV12 strideY codedHeight ≤ srcSpanSize then
          .converted
        else .srcBoundAbort
    | .NV12 =>
        if srcEndOffset .NV12 strideY codedHeight ≤ srcSpanSize then
          .converted
        else .srcBoundAbort
    | .unsupported => .notReached
  else .dstBoundAbort

/-- The destination bytes written by a successful conversion: the external
libyuv routines (I420Copy / NV12ToI420, out of scope of the driver) fill
exactly the destination region ending at `dst_end`; the written values are
irrelevant to every property here and are modelled as zero. -/
def libyuvWrite (dstEnd : Nat) (dst : List Nat) : List Nat :=
  List.replicate (min dstEnd dst.length) 0 ++ dst.drop dstEnd

/-- CopyAndConvertFrame's effect on the destination buffer: nothing is
written unless both CHECKs pass and a supported format reaches the libyuv
call. -/
def copyAndConvertFrameDst (srcSpanSize : Nat) (fmt : PixelFormatType)
    (strideY codedHeight dstMappedSize : Nat) (outputSize : Size)
    (dst : List Nat) : List Nat :=
  match copyAndConvertFrame srcSpanSize fmt strideY codedHeight dstMappedSize
      outputSize with
  | .converted => libyuvWrite (dstEndOffset outputSize) dst
  | _ => dst

/-- `(n + 1) & ~1` on a non-negative int: clearing the lowest bit of
`n + 1`, i.e. subtracting its parity. Used by ProcessNewFrame to compute
`output_size` from `visible_size`. -/
def evenRound (n : Nat) : Nat :=
  (n + 1) - (n + 1) % 2

/-- The `output_size` computed by ProcessNewFrame:
`gfx::Size((visible_size.width() + 1) & ~1, (visible_size.height() + 1) & ~1)`. -/
def outputSizeOf (visibleSize : Size) : Size :=
  ⟨evenRound visibleSize.width, evenRound visibleSize.height⟩

/-- fuchsia::sysmem::ImageFormatConstraints, restricted to the fields
ProcessNewFrame and OnBufferReaderCreated read. -/
structure ImageFormatConstraints where
  minCodedWidth : Nat
  requiredMaxCodedWidth : Nat
  codedWidthDivisor : Nat
  minCodedHeight : Nat
  requiredMaxCodedHeight : Nat
  codedHeightDivisor : Nat
  minBytesPerRow : Nat
  bytesPerRowDivisor : Nat
  pixelFormat : PixelFormatType
deriving DecidableEq, Repr

/-- A SysmemBufferReader as seen by the driver: its buffer count and the
negotiated buffer settings (`has_image_format_constraints` plus the
constraints themselves). -/
structure BufferReader where
  numBuffers : Nat
  hasImageFormatConstraints : Bool
  imageFormatConstraints : ImageFormatConstraints
deriving DecidableEq, Repr

/-- The member state of a VideoCaptureDeviceFuchsia: presence of `device_`,
`client_`, `stream_`, `buffer_collection_creator_`, `buffer_collection_`,
`buffer_reader_`, the resolution hint `frame_size_`, the `started_` flag and
the frame-rate bookkeeping (`frames_received_`, `start_time_` in
microseconds, matching base::TimeTicks resolution). -/
structure DeviceState where
  deviceConnected : Bool
  client : Bool
  streamConnected : Bool
  bufferCollectionCreator : Bool
  bufferCollection : Bool
  bufferReader : Option BufferReader
  frameSize : Option Size
  started : Bool
  framesReceived : Nat
  startTime : Int
deriving DecidableEq, Repr

/-- `src_coded_width` as computed in ProcessNewFrame. -/
def srcCodedWidth (c : ImageFormatConstraints) : Nat :=
  roundUp (max c.minCodedWidth c.requiredMaxCodedWidth) c.codedWidthDivisor

/-- `src_coded_height` as computed in ProcessNewFrame. -/
def srcCodedHeight (c : ImageFormatConstraints) : Nat :=
  roundUp (max c.minCodedHeight c.requiredMaxCodedHeight) c.codedHeightDivisor

/-- `src_stride` as computed in ProcessNewFrame. -/
def srcStride (c : ImageFormatConstraints) : Nat :=
  roundUp (max c.minBytesPerRow (srcCodedWidth c)) c.bytesPerRowDivisor

/-- The errors VideoCaptureDeviceFuchsia reports through Client::OnError. -/
inductive VideoCaptureError where
  | kFuchsiaCameraDeviceDisconnected
  | kFuchsiaCameraStreamDisconnected
  | kFuchsiaSysmemDidNotSetImageFormat
  | kFuchsiaUnsupportedPixelFormat
  | kFuchsiaSysmemInvalidBufferIndex
  | kFuchsiaFailedToMapSysmemBuffer
  | kFuchsiaSysmemInvalidBufferSize
deriving DecidableEq, Repr

/-- media::VideoCaptureFormat as filled in by ProcessNewFrame: frame size,
frame-rate estimate (the C++ float is modelled as a rational) and pixel
format. -/
structure CaptureFormat where
  frameSize : Size
  frameRate : ℚ
  pixelFormat : VideoPixelFormat
deriving DecidableEq, Repr

/-- Calls the driver makes on the generic capture client
(VideoCaptureDevice::Client). -/
inductive ClientEvent where
  | onStarted
  | onError (e : VideoCaptureError)
  | onIncomingCapturedBufferExt (format : CaptureFormat)
      (referenceTime timestamp : Int) (visibleRect : Size)
deriving DecidableEq, Repr

/-- DisconnectStream: unbind the stream and drop the collection creator,
collection, reader and resolution hint. `started_` is not touched. -/
def disconnectStream (s : DeviceState) : DeviceState :=
  { s with
    streamConnected := false
    bufferCollectionCreator := false
    bufferCollection := false
    bufferReader := none
    frameSize := none }

/-- OnError: tear the stream down, then report to the client if one is
attached. -/
def onError (e : VideoCaptureError) (s : DeviceState) :
    DeviceState × List ClientEvent :=
  (disconnectStream s,
   if s.client then [ClientEvent.onError e] else [])

/-- StopAndDeAllocate: DisconnectStream plus dropping the client.
`started_`, `frames_received_` and `start_time_` are left as they are. -/
def stopAndDeAllocate (s : DeviceState) : DeviceState :=
  { disconnectStream s with client := false }

/-- AllocateAndStart: attach the client; if the device connection is gone,
fail with kFuchsiaCameraDeviceDisconnected; otherwise record the start time,
reset the received-frame counter and connect the stream (the watch
re-arming calls carry no client-visible state of their own). -/
def allocateAndStart (now : Int) (s : DeviceState) :
    DeviceState × List ClientEvent :=
  let s1 := { s with client := true }
  if ¬ s1.deviceConnected then
    onError .kFuchsiaCameraDeviceDisconnected s1
  else
    ({ s1 with startTime := now, framesReceived := 0, streamConnected := true },
     [])

/-- OnBufferReaderCreated: store the reader, validate the negotiated
settings, and — only if `started_` is still false — set it, signal
OnStarted and begin the frame pull loop. The returned Bool records whether
ReceiveNextFrame was called (the pull loop began). -/
def onBufferReaderCreated (reader : BufferReader) (s : DeviceState) :
    DeviceState × List ClientEvent × Bool :=
  let s1 := { s with bufferReader := some reader }
  if ¬ reader.hasImageFormatConstraints then
    let (s2, evs) := onError .kFuchsiaSysmemDidNotSetImageFormat s1
    (s2, evs, false)
  else if ¬ isSupportedPixelFormat reader.imageFormatConstraints.pixelFormat then
    let (s2, evs) := onError .kFuchsiaUnsupportedPixelFormat s1
    (s2, evs, false)
  else if ¬ s1.started then
    ({ s1 with started := true }, [ClientEvent.onStarted], true)
  else
    (s1, [], false)

/-- fuchsia::camera3::FrameInfo as used by ProcessNewFrame: the buffer index
and the hardware timestamp (converted to microseconds). -/
structure FrameInfo where
  bufferIndex : Nat
  timestamp : Int
deriving DecidableEq, Repr

/-- The environment of one ProcessNewFrame call: whether
Client::ReserveOutputBuffer succeeds, the size of the sysmem mapping for the
frame's buffer (0 = empty mapping), and the mapped size of the reserved
output buffer. -/
structure FrameEnv where
  reserveSucceeded : Bool
  srcSpanSize : Nat
  dstMappedSize : Nat
deriving DecidableEq, Repr

/-- How one ProcessNewFrame call ended. `crashed` marks a CHECK failure
inside CopyAndConvertFrame (fatal process abort, nothing delivered). -/
inductive FrameOutcome where
  | droppedNoReader
  | fatalError (e : VideoCaptureError)
  | droppedReserveFailed
  | crashed (r : ConvertResult)
  | delivered (format : CaptureFormat) (referenceTime timestamp : Int)
      (visibleRect : Size)
deriving DecidableEq, Repr

/-- Whether the outcome implies CopyAndConvertFrame was invoked: by the
control flow of ProcessNewFrame the converter runs exactly on the paths
ending in `delivered` or `crashed`. -/
def ranConverter : FrameOutcome → Bool
  | .delivered _ _ _ _ => true
  | .crashed _ => true
  | _ => false

/-- Result triple of an error return inside ProcessNewFrame. -/
def errorResult (e : VideoCaptureError) (s : DeviceState) :
    DeviceState × List ClientEvent × FrameOutcome :=
  let (s1, evs) := onError e s
  (s1, evs, .fatalError e)

/-- ProcessNewFrame, in the source's exact order: reader present → buffer
index valid → compute coded sizes, stride, visible size, even-rounded output
size, timestamps and frame-rate estimate → reserve an output buffer (drop
silently on failure) → map the source buffer (empty mapping is fatal) →
check the mapped span against `src_coded_height * src_stride * 3 / 2` →
convert → deliver. The state is returned unchanged on the drop and success
paths; error paths go through OnError's teardown. -/
def processNewFrame (info : FrameInfo) (env : FrameEnv) (s : DeviceState) :
    DeviceState × List ClientEvent × FrameOutcome :=
  match s.bufferReader with
  | none => (s, [], .droppedNoReader)
  | some reader =>
    if reader.numBuffers ≤ info.bufferIndex then
      errorResult .kFuchsiaSysmemInvalidBufferIndex s
    else
      let c := reader.imageFormatConstraints
      let codedHeight := srcCodedHeight c
      let stride := srcStride c
      let visibleSize := s.frameSize.getD ⟨srcCodedWidth c, codedHeight⟩
      let outputSize := outputSizeOf visibleSize
      let referenceTime := info.timestamp
      let timestamp := max (referenceTime - s.startTime) 0
      let frameRate : ℚ :=
        if 0 < timestamp then
          (s.framesReceived : ℚ) / ((timestamp : ℚ) / 1000000)
        else 0
      let captureFormat : CaptureFormat :=
        ⟨outputSize, frameRate, .PIXEL_FORMAT_I420⟩
      if ¬ env.reserveSucceeded then
        (s, [], .droppedReserveFailed)
      else if env.srcSpanSize = 0 then
        errorResult .kFuchsiaFailedToMapSysmemBuffer s
      else if env.srcSpanSize < codedHeight * stride * 3 / 2 then
        errorResult .kFuchsiaSysmemInvalidBufferSize s
      else
        match copyAndConvertFrame env.srcSpanSize c.pixelFormat stride
            codedHeight env.dstMappedSize outputSize with
        | .converted =>
            (s,
             [ClientEvent.onIncomingCapturedBufferExt captureFormat
                referenceTime timestamp visibleSize],
             .delivered captureFormat referenceTime timestamp visibleSize)
        | r => (s, [], .crashed r)

/-- Events of the lambda ReceiveNextFrame hands to Stream::GetNextFrame,
executed when a FrameInfo arrives: the frame is processed to completion and
only then is ReceiveNextFrame called again, re-issuing GetNextFrame. -/
inductive LoopEvent where
  | processFrameBegin
  | processFrameEnd
  | issueGetNextFrame
deriving DecidableEq, Repr

/-- The operation order of the GetNextFrame callback body
`ProcessNewFrame(std::move(frame_info)); ReceiveNextFrame();`. -/
def getNextFrameCallbackTrace : List LoopEvent :=
  [.processFrameBegin, .processFrameEnd, .issueGetNextFrame]

/-! ### Concrete scenario used by the end-to-end spec scenario and witnesses:
a 640×480 I420 collection with two buffers, as in the spec's end-to-end
test description. -/

/-- Constraints of a 640×480 I420 collection with trivial divisors. -/
def testConstraints : ImageFormatConstraints :=
  ⟨640, 0, 1, 480, 0, 1, 0, 1, .I420⟩

/-- A two-buffer reader over `testConstraints`. -/
def testReader : BufferReader := ⟨2, true, testConstraints⟩

/-- A freshly constructed device: connected, nothing else set up. -/
def freshDevice : DeviceState :=
  ⟨true, false, false, false, false, none, none, false, 0, 0⟩

/-- A frame environment where reservation succeeds and both the source
mapping and the destination are exactly 640 * 480 * 3 / 2 = 460800 bytes. -/
def testEnv : FrameEnv := ⟨true, 460800, 460800⟩

/-- The device after AllocateAndStart (at tick 0) and a successful first
buffer-collection negotiation. -/
def readyState : DeviceState :=
  (onBufferReaderCreated testReader (allocateAndStart 0 freshDevice).1).1

lemma readyState_eq :
    readyState =
      ⟨true, true, true, false, false,
        some ⟨2, true, ⟨640, 0, 1, 480, 0, 1, 0, 1, .I420⟩⟩,
        none, true, 0, 0⟩ := by
  decide

/-- Processing the third scenario frame (hardware timestamp 66 ms after the
start tick) from `readyState` delivers a 640×480 I420 frame whose frame-rate
estimate is 0. -/
lemma processNewFrame_third_scenario_frame :
    (processNewFrame ⟨0, 66000⟩ testEnv readyState).2.2 =
      .delivered ⟨⟨640, 480⟩, 0, .PIXEL_FORMAT_I420⟩ 66000 66000 ⟨640, 480⟩ := by
  rw [readyState_eq]
  simp only [processNewFrame, srcCodedWidth, srcCodedHeight, srcStride, roundUp,
    outputSizeOf, evenRound, copyAndConvertFrame, dstEndOffset, srcEndOffset,
    errorResult, onError, disconnectStream, testEnv]
  norm_num

/-! ### Arithmetic helper lemmas -/

/-- Two quarter-size chroma planes with the truncated half stride fit in
half a luma plane: `(s/2*h)/2 + (s/2*h)/2 ≤ s*h/2`. -/
lemma chroma_halves_le (s h : Nat) :
    s / 2 * h / 2 + s / 2 * h / 2 ≤ s * h / 2 := by
  have h1 : 2 * (s / 2 * h) ≤ s * h := by
    have h2 : 2 * (s / 2) ≤ s := by omega
    calc 2 * (s / 2 * h) = 2 * (s / 2) * h := by ring
      _ ≤ s * h := Nat.mul_le_mul_right h h2
  generalize s / 2 * h = A at *
  generalize s * h = B at *
  omega

/-- The source end offset checked by CopyAndConvertFrame never exceeds
`codedHeight * strideY * 3 / 2`, the bound ProcessNewFrame enforces on the
span, for every format and in spite of the truncating divisions. -/
lemma srcEndOffset_le (fmt : PixelFormatType) (strideY codedHeight : Nat) :
    srcEndOffset fmt strideY codedHeight ≤ codedHeight * strideY * 3 / 2 := by
  have hcomm : codedHeight * strideY = strideY * codedHeight := Nat.mul_comm _ _
  have hch := chroma_halves_le strideY codedHeight
  cases fmt <;> simp only [srcEndOffset] <;>
    · generalize strideY / 2 * codedHeight = A at *
      rw [hcomm]
      generalize strideY * codedHeight = B at *
      omega

/-! ### Claim theorems -/

/-- Claim C2, counterexample: in the GetNextFrame callback the re-issue of
the next request does not precede the completion of the current frame's
processing — `ReceiveNextFrame()` runs only after `ProcessNewFrame(...)`
returns, so the re-issue comes strictly after processing completes. -/
theorem nextRequest_not_before_processing_completes :
    getNextFrameCallbackTrace.indexOf .issueGetNextFrame = 2 ∧
    getNextFrameCallbackTrace.indexOf .processFrameEnd = 1 ∧
    ¬ getNextFrameCallbackTrace.indexOf .issueGetNextFrame <
        getNextFrameCallbackTrace.indexOf .processFrameEnd := by
  decide

/-- Claim C2, amended: upon receiving a FrameDescriptor the handler first
processes the current frame to completion and only then — immediately, as
the very next operation of the same callback — issues the next
"get next frame" request. -/
theorem nextRequest_immediately_after_processing :
    getNextFrameCallbackTrace =
      [.processFrameBegin, .processFrameEnd, .issueGetNextFrame] ∧
    getNextFrameCallbackTrace.indexOf .issueGetNextFrame =
      getNextFrameCallbackTrace.indexOf .processFrameEnd + 1 := by
  decide

/-- Claim C4: `started_` is set on the first successful negotiation (which
signals OnStarted and begins the pull loop) and is never reset: a second
negotiation round of the same stream does not re-signal, but — contrary to
the claim — a new stream started after StopAndDeAllocate does not re-signal
either, and its pull loop never begins, because `started_` stays true across
the stop/start cycle. -/
theorem onStarted_not_resignaled_after_restart :
    (onBufferReaderCreated testReader (allocateAndStart 0 freshDevice).1).2 =
      ([ClientEvent.onStarted], true) ∧
    (onBufferReaderCreated testReader
        (onBufferReaderCreated testReader
          (allocateAndStart 0 freshDevice).1).1).2 = ([], false) ∧
    (stopAndDeAllocate
        (onBufferReaderCreated testReader
          (allocateAndStart 0 freshDevice).1).1).started = true ∧
    (onBufferReaderCreated testReader
        (allocateAndStart 100
          (stopAndDeAllocate
            (onBufferReaderCreated testReader
              (allocateAndStart 0 freshDevice).1).1)).1).2 = ([], false) := by
  decide

/-- Claim C7: the per-frame handler's destination size is
`((w + 1) & ~1, (h + 1) & ~1)`; each component is even, equals the input
when the input is even, equals input + 1 when the input is odd, and is the
least even value not below the input. -/
theorem outputSize_even_rounding (w h : Nat) :
    outputSizeOf ⟨w, h⟩ = ⟨evenRound w, evenRound h⟩ ∧
    ∀ n : Nat,
      evenRound n % 2 = 0 ∧
      (n % 2 = 0 → evenRound n = n) ∧
      (n % 2 = 1 → evenRound n = n + 1) ∧
      n ≤ evenRound n ∧
      ∀ m : Nat, m % 2 = 0 → n ≤ m → evenRound n ≤ m := by
  refine ⟨rfl, fun n => ⟨?_, ?_, ?_, ?_, fun m hm hn => ?_⟩⟩ <;>
    · unfold evenRound
      omega

/-- Claim C7 witness at the odd-by-even size 5 × 6. -/
theorem outputSize_even_rounding_witness :
    outputSizeOf ⟨5, 6⟩ = ⟨evenRound 5, evenRound 6⟩ ∧
    evenRound 5 = 5 + 1 ∧ evenRound 6 = 6 := by
  obtain ⟨h1, h2⟩ := outputSize_even_rounding 5 6
  exact ⟨h1, (h2 5).2.2.1 (by decide), (h2 6).2.1 (by decide)⟩

/-- Claim C9: StopAndDeAllocate is idempotent, tears down the stream
connection, collection creator, buffer collection, reader, resolution hint
and client, and composed after an error's teardown (DisconnectStream) it
yields the same state as calling it alone — so it is safe from Starting,
from Started, and after a fatal error. -/
theorem stopAndDeAllocate_idempotent_teardown (s : DeviceState) :
    stopAndDeAllocate (stopAndDeAllocate s) = stopAndDeAllocate s ∧
    stopAndDeAllocate (disconnectStream s) = stopAndDeAllocate s ∧
    (stopAndDeAllocate s).streamConnected = false ∧
    (stopAndDeAllocate s).bufferCollectionCreator = false ∧
    (stopAndDeAllocate s).bufferCollection = false ∧
    (stopAndDeAllocate s).bufferReader = none ∧
    (stopAndDeAllocate s).frameSize = none ∧
    (stopAndDeAllocate s).client = false := by
  simp [stopAndDeAllocate, disconnectStream]

/-- Claim C5: for the even destination sizes the caller produces, the
destination bound CopyAndConvertFrame checks before writing anything is
exactly `width * height` luma bytes plus `width * height / 2` chroma bytes;
when the mapped destination is smaller the call aborts fatally on the CHECK
and the destination buffer is untouched. -/
theorem converter_destination_precondition (srcSpanSize : Nat)
    (fmt : PixelFormatType) (strideY codedHeight dstMappedSize : Nat)
    (outputSize : Size) (dst : List Nat)
    (hw : outputSize.width % 2 = 0) (hh : outputSize.height % 2 = 0) :
    dstEndOffset outputSize =
      outputSize.width * outputSize.height +
        outputSize.width * outputSize.height / 2 ∧
    (dstMappedSize < dstEndOffset outputSize →
      copyAndConvertFrame srcSpanSize fmt strideY codedHeight dstMappedSize
          outputSize = .dstBoundAbort ∧
      copyAndConvertFrameDst srcSpanSize fmt strideY codedHeight dstMappedSize
          outputSize dst = dst) := by
  have hend : dstEndOffset outputSize =
      outputSize.width * outputSize.height +
        outputSize.width * outputSize.height / 2 := by
    obtain ⟨a, ha⟩ : ∃ a, outputSize.width = 2 * a :=
      ⟨outputSize.width / 2, by omega⟩
    obtain ⟨b, hb⟩ : ∃ b, outputSize.height = 2 * b :=
      ⟨outputSize.height / 2, by omega⟩
    have hwh : outputSize.width * outputSize.height = 4 * (a * b) := by
      rw [ha, hb]; ring
    unfold dstEndOffset
    rw [hwh]
    generalize a * b = t
    omega
  refine ⟨hend, fun hlt => ?_⟩
  have hno : ¬ dstEndOffset outputSize ≤ dstMappedSize := by omega
  constructor
  · unfold copyAndConvertFrame
    rw [if_neg hno]
  · unfold copyAndConvertFrameDst copyAndConvertFrame
    rw [if_neg hno]

/-- Claim C5 witness: a 2 × 2 destination needs 6 bytes; a 5-byte
destination aborts on the CHECK with the buffer unchanged. -/
theorem converter_destination_precondition_witness :
    dstEndOffset ⟨2, 2⟩ = 2 * 2 + 2 * 2 / 2 ∧
    (5 < dstEndOffset ⟨2, 2⟩ →
      copyAndConvertFrame 7 .NV12 1 1 5 ⟨2, 2⟩ = .dstBoundAbort ∧
      copyAndConvertFrameDst 7 .NV12 1 1 5 ⟨2, 2⟩ [3] = [3]) :=
  converter_destination_precondition 7 .NV12 1 1 5 ⟨2, 2⟩ [3]
    (by decide) (by decide)

/-- Claim C6: for every supported source format, stride and coded height,
a span of at least `codedHeight * stride * 3 / 2` bytes satisfies the
converter's internal source-bound CHECK, so its abort branch is unreachable
under ProcessNewFrame's size precondition despite the truncating per-plane
divisions. -/
theorem converter_source_check_unreachable (fmt : PixelFormatType)
    (strideY codedHeight srcSpanSize dstMappedSize : Nat) (outputSize : Size)
    (hsupp : isSupportedPixelFormat fmt = true)
    (hspan : codedHeight * strideY * 3 / 2 ≤ srcSpanSize) :
    srcEndOffset fmt strideY codedHeight ≤ srcSpanSize ∧
    copyAndConvertFrame srcSpanSize fmt strideY codedHeight dstMappedSize
        outputSize ≠ .srcBoundAbort := by
  have hle : srcEndOffset fmt strideY codedHeight ≤ srcSpanSize :=
    (srcEndOffset_le fmt strideY codedHeight).trans hspan
  refine ⟨hle, ?_⟩
  unfold copyAndConvertFrame
  by_cases hdst : dstEndOffset outputSize ≤ dstMappedSize
  · rw [if_pos hdst]
    cases fmt <;> simp_all
  · rw [if_neg hdst]
    simp

/-- Claim C6 witness: NV12 with stride 2, coded height 2, and a 6-byte span
(the exact 3/2 bound) passes the source CHECK. -/
theorem converter_source_check_unreachable_witness :
    srcEndOffset .NV12 2 2 ≤ 6 ∧
    copyAndConvertFrame 6 .NV12 2 2 0 ⟨0, 0⟩ ≠ .srcBoundAbort :=
  converter_source_check_unreachable .NV12 2 2 6 0 ⟨0, 0⟩
    (by decide) (by decide)

/-- Claim C1: once a frame reaches the size check (reader present, buffer
index valid, output buffer reserved, source mapping non-empty), a mapped
span smaller than `src_coded_height * src_stride * 3 / 2` fails with
kFuchsiaSysmemInvalidBufferSize, tearing the stream down and writing nothing
to the reserved output buffer (the converter is never invoked); and the
converter runs only when the span is at least that large. -/
theorem undersized_span_fails_bufferTooSmall (s : DeviceState)
    (reader : BufferReader) (info : FrameInfo) (env : FrameEnv)
    (hr : s.bufferReader = some reader) (hc : s.client = true)
    (hi : info.bufferIndex < reader.numBuffers)
    (hres : env.reserveSucceeded = true) (hmap : env.srcSpanSize ≠ 0) :
    (env.srcSpanSize <
        srcCodedHeight reader.imageFormatConstraints *
          srcStride reader.imageFormatConstraints * 3 / 2 →
      processNewFrame info env s =
        (disconnectStream s,
         [ClientEvent.onError .kFuchsiaSysmemInvalidBufferSize],
         .fatalError .kFuchsiaSysmemInvalidBufferSize) ∧
      ranConverter (processNewFrame info env s).2.2 = false) ∧
    (ranConverter (processNewFrame info env s).2.2 = true →
      srcCodedHeight reader.imageFormatConstraints *
          srcStride reader.imageFormatConstraints * 3 / 2 ≤ env.srcSpanSize) := by
  have hni : ¬ reader.numBuffers ≤ info.bufferIndex := by omega
  simp only [processNewFrame, hr, hres, hni, hmap, if_false, if_neg hni,
    not_true, ite_false]
  by_cases hlt : env.srcSpanSize <
      srcCodedHeight reader.imageFormatConstraints *
        srcStride reader.imageFormatConstraints * 3 / 2
  · rw [if_pos hlt]
    simp [errorResult, onError, hc, ranConverter]
  · rw [if_neg hlt]
    refine ⟨fun h => absurd h hlt, fun _ => by omega⟩

/-- Claim C1 witness: from the ready scenario state, a 100-byte mapping
(smaller than the 460800-byte bound) fails with
kFuchsiaSysmemInvalidBufferSize and never reaches the converter. -/
theorem undersized_span_fails_bufferTooSmall_witness :
    (100 < srcCodedHeight testReader.imageFormatConstraints *
        srcStride testReader.imageFormatConstraints * 3 / 2 →
      processNewFrame ⟨0, 0⟩ ⟨true, 100, 0⟩ readyState =
        (disconnectStream readyState,
         [ClientEvent.onError .kFuchsiaSysmemInvalidBufferSize],
         .fatalError .kFuchsiaSysmemInvalidBufferSize) ∧
      ranConverter (processNewFrame ⟨0, 0⟩ ⟨true, 100, 0⟩ readyState).2.2 =
        false) ∧
    (ranConverter (processNewFrame ⟨0, 0⟩ ⟨true, 100, 0⟩ readyState).2.2 =
        true →
      srcCodedHeight testReader.imageFormatConstraints *
        srcStride testReader.imageFormatConstraints * 3 / 2 ≤ 100) :=
  undersized_span_fails_bufferTooSmall readyState testReader ⟨0, 0⟩
    ⟨true, 100, 0⟩ (by decide) (by decide) (by decide) (by decide) (by decide)

/-- Claim C8: when the client's output-buffer reservation fails for a frame
that reached the reservation step, the frame is dropped with no client
callback at all (no OnError, no delivery) and the device state is left
unchanged, so the next frame is processed exactly as it would have been
without the drop. -/
theorem reserve_failure_silent_drop (s : DeviceState) (reader : BufferReader)
    (info : FrameInfo) (env : FrameEnv)
    (hr : s.bufferReader = some reader)
    (hi : info.bufferIndex < reader.numBuffers)
    (hres : env.reserveSucceeded = false) :
    processNewFrame info env s = (s, [], .droppedReserveFailed) ∧
    ∀ info2 env2,
      processNewFrame info2 env2 (processNewFrame info env s).1 =
        processNewFrame info2 env2 s := by
  have hni : ¬ reader.numBuffers ≤ info.bufferIndex := by omega
  have h1 : processNewFrame info env s = (s, [], .droppedReserveFailed) := by
    simp only [processNewFrame, hr, hres, if_neg hni]
    simp
  exact ⟨h1, fun info2 env2 => by rw [h1]⟩

/-- Claim C8 witness: from the ready scenario state, a failed reservation
drops the frame with no events and no state change. -/
theorem reserve_failure_silent_drop_witness :
    processNewFrame ⟨0, 0⟩ ⟨false, 0, 0⟩ readyState =
      (readyState, [], .droppedReserveFailed) :=
  (reserve_failure_silent_drop readyState testReader ⟨0, 0⟩ ⟨false, 0, 0⟩
    (by decide) (by decide) (by decide)).1

/-- Claim C10: every delivered frame hands the client the origin-anchored
rectangle of the unrounded visible size (the resolution hint, or the coded
size when no hint arrived) while the delivered format carries the
even-rounded size; the visible rectangle is contained in the frame size and
differs from it exactly when the visible width or height is odd. -/
theorem delivered_visible_rect (s : DeviceState) (reader : BufferReader)
    (info : FrameInfo) (env : FrameEnv) (fmt : CaptureFormat) (rt ts : Int)
    (vis : Size)
    (hr : s.bufferReader = some reader)
    (h : (processNewFrame info env s).2.2 = .delivered fmt rt ts vis) :
    vis = s.frameSize.getD ⟨srcCodedWidth reader.imageFormatConstraints,
        srcCodedHeight reader.imageFormatConstraints⟩ ∧
    fmt.frameSize = outputSizeOf vis ∧
    vis.width ≤ fmt.frameSize.width ∧
    vis.height ≤ fmt.frameSize.height ∧
    (fmt.frameSize ≠ vis ↔ vis.width % 2 = 1 ∨ vis.height % 2 = 1) := by
  simp only [processNewFrame, hr] at h
  split at h
  · simp [errorResult, onError] at h
  · split at h
    · simp at h
    · split at h
      · simp [errorResult, onError] at h
      · split at h
        · simp [errorResult, onError] at h
        · split at h
          · simp only [FrameOutcome.delivered.injEq] at h
            obtain ⟨h1, h2, h3, h4⟩ := h
            subst h1
            obtain ⟨vw, vh⟩ := vis
            refine ⟨h4.symm, ?_, ?_, ?_, ?_⟩ <;>
              simp only [h4, outputSizeOf, evenRound, ne_eq, Size.mk.injEq,
                not_and] <;>
              omega
          · simp at h

/-- Claim C10 witness: the third scenario frame is delivered with visible
rectangle 640 × 480 (no hint, so the coded size) and the identical
even-rounded frame size. -/
theorem delivered_visible_rect_witness :
    (⟨640, 480⟩ : Size) = readyState.frameSize.getD
        ⟨srcCodedWidth testReader.imageFormatConstraints,
         srcCodedHeight testReader.imageFormatConstraints⟩ ∧
    (⟨⟨640, 480⟩, 0, .PIXEL_FORMAT_I420⟩ : CaptureFormat).frameSize =
      outputSizeOf ⟨640, 480⟩ ∧
    (⟨640, 480⟩ : Size).width ≤
      (⟨⟨640, 480⟩, 0, .PIXEL_FORMAT_I420⟩ : CaptureFormat).frameSize.width ∧
    (⟨640, 480⟩ : Size).height ≤
      (⟨⟨640, 480⟩, 0, .PIXEL_FORMAT_I420⟩ : CaptureFormat).frameSize.height ∧
    ((⟨⟨640, 480⟩, 0, .PIXEL_FORMAT_I420⟩ : CaptureFormat).frameSize ≠
        (⟨640, 480⟩ : Size) ↔
      (⟨640, 480⟩ : Size).width % 2 = 1 ∨ (⟨640, 480⟩ : Size).height % 2 = 1) :=
  delivered_visible_rect readyState testReader ⟨0, 66000⟩ testEnv
    ⟨⟨640, 480⟩, 0, .PIXEL_FORMAT_I420⟩ 66000 66000 ⟨640, 480⟩
    (by decide) processNewFrame_third_scenario_frame

/-- Claim C3: AllocateAndStart does reset the received-frame counter to
zero, but no code path ever increments it — ProcessNewFrame leaves
`frames_received_` unchanged on every outcome — so in the spec's scenario
(start at tick 0, three frames at 0 ms, 33 ms and 66 ms) the third frame is
delivered with a frame-rate estimate of 0, not framesReceived /
elapsedSeconds ≈ 45.5. -/
theorem frameRate_estimate_stuck_at_zero :
    (∀ (info : FrameInfo) (env : FrameEnv) (s : DeviceState),
      (processNewFrame info env s).1.framesReceived = s.framesReceived) ∧
    (allocateAndStart 0 freshDevice).1.framesReceived = 0 ∧
    (processNewFrame ⟨0, 0⟩ testEnv readyState).1 = readyState ∧
    (processNewFrame ⟨1, 33000⟩ testEnv readyState).1 = readyState ∧
    (processNewFrame ⟨0, 66000⟩ testEnv readyState).2.2 =
      .delivered ⟨⟨640, 480⟩, 0, .PIXEL_FORMAT_I420⟩ 66000 66000
        ⟨640, 480⟩ := by
  refine ⟨fun info env s => ?_, by decide, by decide, by decide,
    processNewFrame_third_scenario_frame⟩
  simp only [processNewFrame]
  cases hb : s.bufferReader with
  | none => rfl
  | some reader =>
    simp only []
    split_ifs <;>
      first
      | rfl
      | (split <;> rfl)

end VideoCaptureFuchsia
